import Mathlib

/-!
Verification development for the btech-web client-side utility library
(src/pages/script.js). The file shallowly embeds the DOM-manipulating
helpers the specification talks about: each JS function becomes a Lean
function on an explicit state record, timers become explicitly fired
pending callbacks, and host exceptions (such as Node.removeChild on a
detached node) become either an Except error or a recorded flag.
-/

/-- JS string coercion for the pattern value-or-default, written in the
source as x or-else d (the JS operator treats the empty string as falsy,
so an empty x also yields the default). Used by showModal for the title
(line 481), by apiRequest for the error message (line 663). -/
def jsOrString (x : Option String) (d : String) : String :=
  match x with
  | some t => if t = "" then d else t
  | none => d

/-- jsOrString never returns the empty string when the default is non-empty. -/
theorem jsOrString_ne_empty (x : Option String) (d : String) (hd : d ≠ "") :
    jsOrString x d ≠ "" := by
  cases x with
  | none => simpa [jsOrString] using hd
  | some t =>
    by_cases ht : t = "" <;> simp [jsOrString, ht, hd]

/-- Options object accepted by showModal (script.js lines 405-413):
fields title, content, onClose, closeOnOutsideClick. A field set to none
models an absent property. The onClose callback is modelled implicitly:
every modal instance in our traces has one, and its invocations are
recorded in ModalState.onCloseCalls. -/
structure ModalOptions where
  title : Option String
  content : Option String
  closeOnOutsideClick : Option Bool
deriving DecidableEq

/-- A modal overlay element currently attached to the document, created by
showModal (script.js lines 420-521). inst is the creation index used to
tell successive showModal calls apart; title is options.title or-else
"Modal" (line 481); content is options.content or-else the empty string
(line 513); closesOnOutsideClick records whether the outside-click
listener was registered (line 567: options.closeOnOutsideClick !== false). -/
structure DisplayedModal where
  inst : Nat
  title : String
  content : String
  closesOnOutsideClick : Bool
deriving DecidableEq

/-- State of the document relevant to the modal lifecycle.
docModals: the elements with id dynamic-modal attached to document.body,
in document order. overflow: document.body.style.overflow.
escapeHandlers: instance indices whose closeOnEscape keydown listener
(script.js lines 559-564) is currently registered on the document, in
registration order. pendingTeardowns: instance indices whose closeModal
setTimeout callback (lines 545-552) is scheduled, in scheduling order.
onCloseCalls: instances whose options.onClose has been invoked, in order.
threw: set when a fired callback raised an uncaught host exception. -/
structure ModalState where
  docModals : List DisplayedModal
  overflow : String
  escapeHandlers : List Nat
  pendingTeardowns : List Nat
  onCloseCalls : List Nat
  threw : Bool
deriving DecidableEq

/-- The document before any modal has been shown. -/
def ModalState.init : ModalState :=
  { docModals := [], overflow := "", escapeHandlers := [], pendingTeardowns := [],
    onCloseCalls := [], threw := false }

/-- showModal (script.js lines 413-581). Removes the existing element with
id dynamic-modal if any via Element.remove (lines 415-418; getElementById
returns the first such element in document order, and remove() invokes no
callback), appends the newly built overlay (line 521), sets
document.body.style.overflow to hidden (line 524), and registers the
closeOnEscape keydown listener (line 559). Animation styles and the inner
header/body markup carry no lifecycle state and are kept only as the
title/content fields. -/
def showModal (i : Nat) (o : ModalOptions) (s : ModalState) : ModalState :=
  let remaining := match s.docModals with
    | [] => []
    | _ :: rest => rest
  { s with
    docModals := remaining ++
      [{ inst := i,
         title := jsOrString o.title "Modal",
         content := (o.content).getD "",
         closesOnOutsideClick := o.closeOnOutsideClick != some false }],
    overflow := "hidden",
    escapeHandlers := s.escapeHandlers ++ [i] }

/-- The synchronous part of closeModal for instance i (script.js lines
527-544 and 545): it restyles the overlay and appends a style element
(presentational, not tracked) and schedules the teardown setTimeout
callback. There is no guard: every call schedules another teardown. -/
def closeModalCall (i : Nat) (s : ModalState) : ModalState :=
  { s with pendingTeardowns := s.pendingTeardowns ++ [i] }

/-- The closeModal setTimeout callback for instance i (script.js lines
545-552): document.body.removeChild(modalOverlay). Per DOM semantics
removeChild throws NotFoundError when the node is not a child of the
context node, so when instance i is no longer attached the callback
aborts with an uncaught exception (threw := true) and neither the
overflow restore nor options.onClose runs. Otherwise the node is removed,
scrolling is restored, and onClose is invoked. -/
def runTeardown (i : Nat) (s : ModalState) : ModalState :=
  if s.docModals.any (fun m => m.inst == i) then
    { s with docModals := s.docModals.filter (fun m => m.inst != i),
             overflow := "",
             onCloseCalls := s.onCloseCalls ++ [i] }
  else
    { s with threw := true }

/-- Fire the earliest scheduled closeModal teardown callback, if any
(host timer queue, FIFO for equal delays). -/
def fireNextTimer (s : ModalState) : ModalState :=
  match s.pendingTeardowns with
  | [] => s
  | i :: rest => runTeardown i { s with pendingTeardowns := rest }

/-- An Escape keydown dispatched on the document (script.js lines
559-564). Every registered closeOnEscape listener fires in registration
order; each calls closeModal for its own instance (scheduling a teardown)
and then removes itself with removeEventListener. This is the only place
a closeOnEscape listener is ever deregistered. -/
def modalEscapeKeydown (s : ModalState) : ModalState :=
  { s with pendingTeardowns := s.pendingTeardowns ++ s.escapeHandlers,
           escapeHandlers := [] }

/-- A click on the close button of modal instance i (script.js line 556):
it invokes closeModal. -/
def closeButtonClick (i : Nat) (s : ModalState) : ModalState :=
  closeModalCall i s

/-- A click whose target is exactly the overlay backdrop of instance i
(script.js lines 567-573): the listener exists only when
closeOnOutsideClick was not explicitly false, and the element must be
attached for a click to reach it; then closeModal is invoked. -/
def modalOutsideClick (i : Nat) (s : ModalState) : ModalState :=
  if s.docModals.any (fun m => m.inst == i && m.closesOnOutsideClick) then
    closeModalCall i s
  else s

/-- C1 counterexample: the handle returned by showModal is invoked twice
(script.js lines 575-576 expose closeModal as close). The first teardown
callback removes the overlay and invokes onClose; the second finds the
overlay no longer a child of document.body and removeChild raises an
uncaught NotFoundError, so the second close is not a safe non-throwing
no-op as the claim states. -/
theorem modal_close_twice_counterexample :
    (fireNextTimer (fireNextTimer (closeModalCall 0 (closeModalCall 0
        (showModal 0 { title := none, content := none, closeOnOutsideClick := none }
          ModalState.init))))).threw = true ∧
    (fireNextTimer (fireNextTimer (closeModalCall 0 (closeModalCall 0
        (showModal 0 { title := none, content := none, closeOnOutsideClick := none }
          ModalState.init))))).onCloseCalls = [0] := by
  decide

/-- C1 amended: invoking close() twice on a fresh modal invokes onClose
exactly once, and the modal element ends up removed, but the second call
is not a safe no-op: its scheduled teardown callback throws an uncaught
NotFoundError when removeChild runs against the already-removed overlay
(the single onClose invocation holds only because that throw aborts the
callback before its own onClose call). -/
theorem modal_close_twice_amended (i : Nat) (o : ModalOptions) :
    (fireNextTimer (fireNextTimer (closeModalCall i (closeModalCall i
        (showModal i o ModalState.init))))).onCloseCalls = [i] ∧
    (fireNextTimer (fireNextTimer (closeModalCall i (closeModalCall i
        (showModal i o ModalState.init))))).threw = true ∧
    (fireNextTimer (fireNextTimer (closeModalCall i (closeModalCall i
        (showModal i o ModalState.init))))).docModals = [] := by
  simp [showModal, closeModalCall, fireNextTimer, runTeardown, ModalState.init]

/-- C2 counterexample: a modal dismissed through its close button. After
the teardown completes the modal is gone from the document and its
onClose has run, yet the closeOnEscape keydown listener registered for it
is still on the document: deregistration happens only inside the Escape
branch (script.js line 562), not on close. -/
theorem modal_escape_leak_counterexample :
    (fireNextTimer (closeButtonClick 0
        (showModal 0 { title := none, content := none, closeOnOutsideClick := none }
          ModalState.init))).docModals = [] ∧
    (fireNextTimer (closeButtonClick 0
        (showModal 0 { title := none, content := none, closeOnOutsideClick := none }
          ModalState.init))).onCloseCalls = [0] ∧
    (fireNextTimer (closeButtonClick 0
        (showModal 0 { title := none, content := none, closeOnOutsideClick := none }
          ModalState.init))).escapeHandlers = [0] := by
  decide

/-- C2 amended: each showModal call registers its escape-key listener
exactly once, but the listener is deregistered only when an Escape
keydown actually fires it; dismissal via the handle, the close button, or
an outside click (all of which go through closeModal) and the teardown
callback itself leave it registered, so listeners from closed modals
accumulate across open/close cycles (two remain after a
show/close-button/show cycle). -/
theorem modal_escape_handler_amended :
    (∀ (i : Nat) (o : ModalOptions) (s : ModalState),
        (showModal i o s).escapeHandlers = s.escapeHandlers ++ [i]) ∧
    (∀ (i : Nat) (s : ModalState),
        (closeModalCall i s).escapeHandlers = s.escapeHandlers) ∧
    (∀ (i : Nat) (s : ModalState),
        (modalOutsideClick i s).escapeHandlers = s.escapeHandlers) ∧
    (∀ s : ModalState, (fireNextTimer s).escapeHandlers = s.escapeHandlers) ∧
    (∀ s : ModalState, (modalEscapeKeydown s).escapeHandlers = []) ∧
    (showModal 1 { title := none, content := none, closeOnOutsideClick := none }
        (fireNextTimer (closeButtonClick 0
          (showModal 0 { title := none, content := none, closeOnOutsideClick := none }
            ModalState.init)))).escapeHandlers = [0, 1] := by
  refine ⟨fun i o s => rfl, fun i s => rfl, fun i s => ?_, fun s => ?_, fun s => rfl, by decide⟩
  · unfold modalOutsideClick closeModalCall
    split <;> rfl
  · cases h : s.pendingTeardowns with
    | nil => simp [fireNextTimer, h]
    | cons i rest =>
      simp only [fireNextTimer, h, runTeardown]
      split <;> rfl

/-- C3: calling showModal a second time while a first modal is attached
removes the first element and appends the new one, leaving exactly one
dynamic-modal element in the document, built entirely from the second
call's options (title defaulted through or-else "Modal", content
defaulted to empty, outside-click closing unless explicitly false); the
replacement path invokes no onClose callback. -/
theorem showModal_singleton_replace (i j : Nat) (oi oj : ModalOptions) :
    (showModal j oj (showModal i oi ModalState.init)).docModals =
      [{ inst := j,
         title := jsOrString oj.title "Modal",
         content := (oj.content).getD "",
         closesOnOutsideClick := oj.closeOnOutsideClick != some false }] ∧
    (showModal j oj (showModal i oi ModalState.init)).docModals.length = 1 ∧
    (showModal j oj (showModal i oi ModalState.init)).onCloseCalls = [] := by
  simp [showModal, ModalState.init]

/-- A JS value observable from the notification icon/color lookups: a
string property value, a function inherited from Object.prototype, the
Object.prototype object itself as produced by the inherited dunder-proto
accessor, or undefined for an absent property. -/
inductive JSVal where
  | str (s : String)
  | fn (name : String)
  | protoObj
  | undef
deriving DecidableEq

/-- JS truthiness for the values above: the empty string, and undefined,
are falsy; any function, and any object, is truthy. -/
def JSVal.truthy : JSVal → Bool
  | .str s => s != ""
  | .fn _ => true
  | .protoObj => true
  | .undef => false

/-- Function-valued properties every plain object literal inherits from
Object.prototype, visible to bracket lookup on the icons/colors literals:
the seven core ECMAScript methods plus the four Annex B legacy accessor
helpers, which are normative in web browsers — the host this script runs
in (it uses document, window and navigator). -/
def objectProtoProps : List String :=
  ["constructor", "hasOwnProperty", "isPrototypeOf", "propertyIsEnumerable",
   "toLocaleString", "toString", "valueOf",
   "__defineGetter__", "__defineSetter__", "__lookupGetter__", "__lookupSetter__"]

/-- JS property read obj[key] on an object literal with string-valued own
properties: an own property wins; otherwise the lookup walks the
prototype chain to Object.prototype, where the Annex B dunder-proto
accessor getter yields the Object.prototype object itself and the method
names yield inherited functions; otherwise undefined. -/
def jsGetStr (own : String → Option String) (key : String) : JSVal :=
  match own key with
  | some v => JSVal.str v
  | none =>
    if key = "__proto__" then JSVal.protoObj
    else if objectProtoProps.contains key then JSVal.fn key
    else JSVal.undef

/-- Own properties of the icons literal in getNotificationIcon
(script.js lines 300-305). -/
def iconsOwn (t : String) : Option String :=
  if t = "success" then some "fa-check-circle"
  else if t = "error" then some "fa-exclamation-circle"
  else if t = "warning" then some "fa-exclamation-triangle"
  else if t = "info" then some "fa-info-circle"
  else none

/-- Own properties of the colors literal in getNotificationColor
(script.js lines 313-318). -/
def colorsOwn (t : String) : Option String :=
  if t = "success" then some "linear-gradient(90deg, #10b981, #34d399)"
  else if t = "error" then some "linear-gradient(90deg, #ef4444, #f87171)"
  else if t = "warning" then some "linear-gradient(90deg, #f59e0b, #fbbf24)"
  else if t = "info" then some "linear-gradient(90deg, #3b82f6, #60a5fa)"
  else none

/-- getNotificationIcon (script.js lines 299-307): icons[type] falling
back to icons.info when the lookup is falsy. -/
def getNotificationIcon (t : String) : JSVal :=
  let v := jsGetStr iconsOwn t
  if v.truthy then v else jsGetStr iconsOwn "info"

/-- getNotificationColor (script.js lines 312-320): colors[type] falling
back to colors.info when the lookup is falsy. -/
def getNotificationColor (t : String) : JSVal :=
  let v := jsGetStr colorsOwn t
  if v.truthy then v else jsGetStr colorsOwn "info"

/-- C4 counterexample: the input "toString" is not one of the four
severities, yet neither lookup falls back to the info entry: the bracket
read finds the truthy Object.prototype.toString function inherited by the
object literal, and that function is what showNotification interpolates
into the markup in place of an icon class or background. -/
theorem notification_lookup_counterexample :
    getNotificationIcon "toString" = JSVal.fn "toString" ∧
    getNotificationIcon "toString" ≠ JSVal.str "fa-info-circle" ∧
    getNotificationColor "toString" = JSVal.fn "toString" ∧
    getNotificationColor "toString" ≠
      JSVal.str "linear-gradient(90deg, #3b82f6, #60a5fa)" := by
  decide

/-- C4 amended: for the four enumerated severities both lookups return
the matching icon and color, and for every other input string that names
no Object.prototype property — neither one of the inherited methods
(including the Annex B legacy accessor helpers normative in browsers) nor
the dunder-proto accessor — the lookups fall back silently to the info
icon and info color. Inputs naming an inherited method (toString,
constructor, the Annex B helpers, and so on) instead return that
inherited truthy function, and the dunder-proto input returns the truthy
Object.prototype object, so none of those fall back. No input raises an
error. -/
theorem notification_lookup_amended (t : String)
    (h1 : t ≠ "success") (h2 : t ≠ "error") (h3 : t ≠ "warning") (h4 : t ≠ "info")
    (h5 : objectProtoProps.contains t = false) (h7 : t ≠ "__proto__") :
    (getNotificationIcon t = JSVal.str "fa-info-circle" ∧
     getNotificationColor t = JSVal.str "linear-gradient(90deg, #3b82f6, #60a5fa)") ∧
    (getNotificationIcon "success" = JSVal.str "fa-check-circle" ∧
     getNotificationIcon "error" = JSVal.str "fa-exclamation-circle" ∧
     getNotificationIcon "warning" = JSVal.str "fa-exclamation-triangle" ∧
     getNotificationIcon "info" = JSVal.str "fa-info-circle" ∧
     getNotificationColor "success" = JSVal.str "linear-gradient(90deg, #10b981, #34d399)" ∧
     getNotificationColor "error" = JSVal.str "linear-gradient(90deg, #ef4444, #f87171)" ∧
     getNotificationColor "warning" = JSVal.str "linear-gradient(90deg, #f59e0b, #fbbf24)" ∧
     getNotificationColor "info" = JSVal.str "linear-gradient(90deg, #3b82f6, #60a5fa)") ∧
    (getNotificationIcon "__proto__" = JSVal.protoObj ∧
     getNotificationColor "__proto__" = JSVal.protoObj ∧
     getNotificationIcon "__defineGetter__" = JSVal.fn "__defineGetter__" ∧
     getNotificationIcon "__lookupSetter__" = JSVal.fn "__lookupSetter__" ∧
     getNotificationColor "__defineSetter__" = JSVal.fn "__defineSetter__" ∧
     getNotificationColor "__lookupGetter__" = JSVal.fn "__lookupGetter__") := by
  refine ⟨?_, by decide, by decide⟩
  have h6 : t ∉ objectProtoProps := by
    simpa using h5
  constructor <;>
    simp [getNotificationIcon, getNotificationColor, jsGetStr, iconsOwn, colorsOwn,
      h1, h2, h3, h4, h6, h7, JSVal.truthy]

/-- C4 amended witness: the unrecognized severity "bogus" falls back to
the info icon and color. -/
theorem notification_lookup_amended_witness :
    getNotificationIcon "bogus" = JSVal.str "fa-info-circle" ∧
    getNotificationColor "bogus" = JSVal.str "linear-gradient(90deg, #3b82f6, #60a5fa)" :=
  (notification_lookup_amended "bogus" (by decide) (by decide) (by decide) (by decide)
    (by decide) (by decide)).1

/-- State of one notification element created by showNotification
(script.js lines 231-294). inDoc: the element is attached to
document.body (document.body.contains). removeCalls: how many times
Element.remove has executed on it. actuallyRemoved: how many of those
calls found the element attached and detached it. pendingRemovals:
scheduled setTimeout callbacks that will call remove (the 300ms exit
delay). animation: the element's current animation style. -/
structure NotifState where
  inDoc : Bool
  removeCalls : Nat
  actuallyRemoved : Nat
  pendingRemovals : Nat
  animation : String
deriving DecidableEq

/-- The exit animation both dismissal paths set (script.js lines 281, 288). -/
def slideOutAnim : String := "slideOut 0.3s ease forwards"

/-- A freshly appended notification (script.js lines 264, 293): entry
animation playing, no removal scheduled. -/
def notifInit : NotifState :=
  { inDoc := true, removeCalls := 0, actuallyRemoved := 0, pendingRemovals := 0,
    animation := "slideIn 0.3s ease" }

/-- The close-button dismissal path (script.js lines 280-283): set the
exit animation and schedule removal after the fixed 300ms delay. -/
def closeBtnClick (s : NotifState) : NotifState :=
  { s with animation := slideOutAnim, pendingRemovals := s.pendingRemovals + 1 }

/-- The automatic dismissal path (script.js lines 286-291): after the
duration, if document.body still contains the notification, set the exit
animation and schedule removal after the fixed 300ms delay; otherwise do
nothing. -/
def autoDismissTimer (s : NotifState) : NotifState :=
  if s.inDoc then
    { s with animation := slideOutAnim, pendingRemovals := s.pendingRemovals + 1 }
  else s

/-- Fire one scheduled removal callback: notification.remove(). Per DOM
semantics ChildNode.remove detaches the element when it has a parent and
is a no-op otherwise; unlike removeChild it never throws, which is why
the result is always ok. -/
def fireNotifRemoval (s : NotifState) : Except String NotifState :=
  match s.pendingRemovals with
  | 0 => Except.ok s
  | n + 1 =>
    Except.ok
      { s with pendingRemovals := n,
               removeCalls := s.removeCalls + 1,
               inDoc := false,
               actuallyRemoved :=
                 if s.inDoc then s.actuallyRemoved + 1 else s.actuallyRemoved }

/-- C9: the automatic dismissal path applied to an attached notification
performs exactly the close-button teardown (same exit animation, same
scheduled removal); and triggering both paths on the same fresh
notification, then letting both scheduled removals fire, removes the
element exactly once — the second remove call is a no-op on the detached
element and nothing throws. -/
theorem notification_dismissal_paths (s : NotifState) (h : s.inDoc = true) :
    autoDismissTimer s = closeBtnClick s ∧
    Except.bind (fireNotifRemoval (autoDismissTimer (closeBtnClick notifInit)))
        fireNotifRemoval =
      Except.ok { inDoc := false, removeCalls := 2, actuallyRemoved := 1,
                  pendingRemovals := 0, animation := slideOutAnim } := by
  constructor
  · simp [autoDismissTimer, closeBtnClick, h]
  · rfl

/-- C9 witness: the two paths coincide on the freshly shown notification. -/
theorem notification_dismissal_paths_witness :
    autoDismissTimer notifInit = closeBtnClick notifInit :=
  (notification_dismissal_paths notifInit rfl).1

/-- Markup the source writes into the mobile-menu toggle in the open state
(script.js line 91). -/
def iconTimes : String := "<i class=\"fas fa-times\"></i>"

/-- Markup the source writes into the mobile-menu toggle in the closed
state (script.js lines 94, 105). -/
def iconBars : String := "<i class=\"fas fa-bars\"></i>"

/-- State of the mobile menu: active is whether navLinks.classList
contains "active"; toggleIcon is menuToggle.innerHTML; bodyOverflow is
document.body.style.overflow. -/
structure MenuState where
  active : Bool
  toggleIcon : String
  bodyOverflow : String
deriving DecidableEq

/-- toggleMobileMenu (script.js lines 86-97): classList.toggle("active"),
then, depending on the resulting state, swap the toggle icon and disable
or restore page scrolling. -/
def toggleMobileMenu (s : MenuState) : MenuState :=
  let nowActive := !s.active
  if nowActive then
    { active := nowActive, toggleIcon := iconTimes, bodyOverflow := "hidden" }
  else
    { active := nowActive, toggleIcon := iconBars, bodyOverflow := "" }

/-- closeMobileMenu (script.js lines 102-108): remove the "active" class,
restore the bars icon and page scrolling. -/
def closeMobileMenu (_s : MenuState) : MenuState :=
  { active := false, toggleIcon := iconBars, bodyOverflow := "" }

/-- The Escape keydown listener installed by initMobileMenu (script.js
lines 75-79): closes the menu only while it is active. -/
def menuEscapeKeydown (s : MenuState) : MenuState :=
  if s.active then closeMobileMenu s else s

/-- handleClickOutside (script.js lines 113-119): closes the menu when it
is active and the click target is contained in neither navLinks nor
menuToggle. -/
def handleClickOutside (insideMenu insideToggle : Bool) (s : MenuState) : MenuState :=
  if s.active && !insideMenu && !insideToggle then closeMobileMenu s else s

/-- C7: the mobile menu is a two-state machine. From Closed, a toggle
activation moves to Open, disabling page scroll and swapping the icon to
the close glyph, while escape and any click leave Closed alone. From
Open, a second toggle activation, an escape press, or a click outside
both the menu and the toggle all move to Closed, restoring scroll and the
bars icon; a click inside either region leaves the state unchanged. -/
theorem mobile_menu_state_machine (s : MenuState) :
    (s.active = false →
        toggleMobileMenu s =
          { active := true, toggleIcon := iconTimes, bodyOverflow := "hidden" } ∧
        menuEscapeKeydown s = s ∧
        (∀ im it : Bool, handleClickOutside im it s = s)) ∧
    (s.active = true →
        toggleMobileMenu s =
          { active := false, toggleIcon := iconBars, bodyOverflow := "" } ∧
        menuEscapeKeydown s =
          { active := false, toggleIcon := iconBars, bodyOverflow := "" } ∧
        handleClickOutside false false s =
          { active := false, toggleIcon := iconBars, bodyOverflow := "" } ∧
        (∀ im it : Bool, (im || it) = true → handleClickOutside im it s = s)) := by
  constructor
  · intro h
    refine ⟨?_, ?_, ?_⟩ <;>
      simp [toggleMobileMenu, menuEscapeKeydown, handleClickOutside, h]
  · intro h
    refine ⟨?_, ?_, ?_, ?_⟩
    · simp [toggleMobileMenu, h]
    · simp [menuEscapeKeydown, closeMobileMenu, h]
    · simp [handleClickOutside, closeMobileMenu, h]
    · intro im it hit
      cases im <;> cases it <;> simp_all [handleClickOutside]

/-- C7 witness: from the closed resting state a toggle opens the menu,
and from the resulting open state an escape press closes it again. -/
theorem mobile_menu_state_machine_witness :
    toggleMobileMenu { active := false, toggleIcon := iconBars, bodyOverflow := "" } =
      { active := true, toggleIcon := iconTimes, bodyOverflow := "hidden" } ∧
    menuEscapeKeydown { active := true, toggleIcon := iconTimes, bodyOverflow := "hidden" } =
      { active := false, toggleIcon := iconBars, bodyOverflow := "" } :=
  ⟨((mobile_menu_state_machine _).1 rfl).1,
   ((mobile_menu_state_machine _).2 rfl).2.1⟩

/-- An element passed to the loading-state helpers. innerHTML and
disabled are the live DOM properties; the two data fields model the
data-original-content and data-original-disabled attributes (none when
the attribute is absent, so getAttribute returns null). -/
structure LoadingEl where
  innerHTML : String
  disabled : Bool
  dataOriginalContent : Option String
  dataOriginalDisabled : Option String
deriving DecidableEq

/-- The spinner markup showLoading writes (script.js lines 600-603, with
the template whitespace collapsed to a single space). -/
def loadingMarkup (text : String) : String :=
  "<i class=\"fas fa-spinner fa-spin\" style=\"margin-right: 0.5rem;\"></i> " ++ text

/-- showLoading on a non-null element (script.js lines 592-605): save the
current innerHTML and the stringified disabled flag into the two data
attributes (setAttribute stringifies the boolean), then write the spinner
markup and disable the element. -/
def showLoadingEl (e : LoadingEl) (text : String) : LoadingEl :=
  { innerHTML := loadingMarkup text,
    disabled := true,
    dataOriginalContent := some e.innerHTML,
    dataOriginalDisabled := some (if e.disabled then "true" else "false") }

/-- hideLoading on a non-null element (script.js lines 611-627). The
content restore is guarded by JS truthiness of getAttribute, so a saved
empty string (as well as an absent attribute) skips both the restore and
the attribute removal; the disabled restore is guarded by a strict
null-comparison, so any present attribute is restored and removed. -/
def hideLoadingEl (e : LoadingEl) : LoadingEl :=
  let e1 :=
    match e.dataOriginalContent with
    | some c =>
      if c = "" then e
      else { e with innerHTML := c, dataOriginalContent := none }
    | none => e
  match e1.dataOriginalDisabled with
  | some d => { e1 with disabled := d == "true", dataOriginalDisabled := none }
  | none => e1

/-- showLoading including its null guard (script.js line 593): a missing
element is a silent no-op, and no path throws. -/
def showLoading (el : Option LoadingEl) (text : String) :
    Except String (Option LoadingEl) :=
  match el with
  | none => Except.ok none
  | some e => Except.ok (some (showLoadingEl e text))

/-- hideLoading including its null guard (script.js line 612). -/
def hideLoading (el : Option LoadingEl) : Except String (Option LoadingEl) :=
  match el with
  | none => Except.ok none
  | some e => Except.ok (some (hideLoadingEl e))

/-- The navbar element; scrolled is whether its classList contains
"scrolled". -/
structure NavbarEl where
  scrolled : Bool
deriving DecidableEq

/-- handleNavbarScroll (script.js lines 57-65): guarded by if (navbar),
so a missing navbar is a silent no-op; otherwise the scrolled class
tracks whether window.scrollY exceeds 50. -/
def handleNavbarScroll (navbar : Option NavbarEl) (scrollY : Nat) :
    Except String (Option NavbarEl) :=
  match navbar with
  | none => Except.ok none
  | some _ => Except.ok (some { scrolled := decide (scrollY > 50) })

/-- A form input element together with the state showFormError and
clearFormError manipulate: the error class, the inline border color, the
text of the sibling form-error element if present, and focus. -/
structure InputEl where
  hasErrorClass : Bool
  borderColor : String
  siblingErrorMessage : Option String
  focused : Bool
deriving DecidableEq

/-- showFormError (script.js lines 351-385). There is no null guard: the
very first statement reads input.parentNode, so a null input raises an
uncaught TypeError. On a real element it replaces any existing sibling
error element, adds the error class, sets the red border, appends the
message element and focuses the input. -/
def showFormError (input : Option InputEl) (message : String) :
    Except String InputEl :=
  match input with
  | none => Except.error "TypeError: cannot read parentNode of null"
  | some _ =>
    Except.ok
      { hasErrorClass := true, borderColor := "#ef4444",
        siblingErrorMessage := some message, focused := true }

/-- clearFormError (script.js lines 391-399). Also unguarded: a null
input raises a TypeError at input.classList. Otherwise it removes the
error class, resets the border and removes the sibling error element. -/
def clearFormError (input : Option InputEl) : Except String InputEl :=
  match input with
  | none => Except.error "TypeError: cannot read classList of null"
  | some i =>
    Except.ok
      { i with hasErrorClass := false, borderColor := "",
               siblingErrorMessage := none }

/-- Whether a call ended in an uncaught exception. -/
def isThrown {α : Type} (r : Except String α) : Bool :=
  match r with
  | Except.error _ => true
  | Except.ok _ => false

/-- C8 counterexample: the form-error helpers are not defensive. Called
with a missing input element they throw a TypeError instead of no-oping,
so not every exposed function degrades to a silent no-op on a missing
DOM target. -/
theorem formError_null_throws_counterexample :
    isThrown (showFormError none "This field is required") = true ∧
    isThrown (clearFormError none) = true := by
  decide

/-- C8 amended: the loading-state helpers and the navbar scroll handler
are guarded and silently no-op on a missing target, but the form-error
helpers are unguarded and throw a TypeError on a null input. -/
theorem missing_target_amended (text msg : String) (sy : Nat) :
    showLoading none text = Except.ok none ∧
    hideLoading none = Except.ok none ∧
    handleNavbarScroll none sy = Except.ok none ∧
    isThrown (showFormError none msg) = true ∧
    isThrown (clearFormError none) = true := by
  exact ⟨rfl, rfl, rfl, rfl, rfl⟩

/-- C10 counterexample: an element whose original innerHTML is the empty
string. After showLoading and hideLoading the element still carries the
spinner markup and the data-original-content attribute: the restore is
guarded by JS truthiness, and the saved empty string is falsy, so this is
not a round trip. -/
theorem loading_roundtrip_counterexample :
    hideLoadingEl (showLoadingEl
        { innerHTML := "", disabled := false,
          dataOriginalContent := none, dataOriginalDisabled := none } "Loading...") ≠
      { innerHTML := "", disabled := false,
        dataOriginalContent := none, dataOriginalDisabled := none } ∧
    (hideLoadingEl (showLoadingEl
        { innerHTML := "", disabled := false,
          dataOriginalContent := none, dataOriginalDisabled := none } "Loading...")).innerHTML =
      loadingMarkup "Loading..." ∧
    (hideLoadingEl (showLoadingEl
        { innerHTML := "", disabled := false,
          dataOriginalContent := none, dataOriginalDisabled := none } "Loading...")).dataOriginalContent =
      some "" := by
  decide

/-- C10 amended: for an element with non-empty original innerHTML and
neither data-original attribute already set, hideLoading after
showLoading restores the original innerHTML and disabled state and
removes both attributes — a full round trip; with an empty original
innerHTML the loading markup and the saved attribute are left behind. -/
theorem loading_roundtrip_amended (e : LoadingEl) (text : String)
    (h1 : e.innerHTML ≠ "") (h2 : e.dataOriginalContent = none)
    (h3 : e.dataOriginalDisabled = none) :
    hideLoadingEl (showLoadingEl e text) = e := by
  obtain ⟨ih, dis, doc, dod⟩ := e
  simp only at h1 h2 h3
  subst h2 h3
  cases dis <;> simp [showLoadingEl, hideLoadingEl, h1]

/-- C10 amended witness: a concrete enabled button labelled Submit makes
the round trip. -/
theorem loading_roundtrip_amended_witness :
    hideLoadingEl (showLoadingEl
        { innerHTML := "Submit", disabled := false,
          dataOriginalContent := none, dataOriginalDisabled := none } "Loading...") =
      { innerHTML := "Submit", disabled := false,
        dataOriginalContent := none, dataOriginalDisabled := none } :=
  loading_roundtrip_amended _ "Loading..." (by decide) rfl rfl

/-- The caller-supplied options object for apiRequest. A none field
models an absent own property; the spread in the source copies present
own properties over the defaults. -/
structure RequestOptions where
  headers : Option (List (String × String))
  credentials : Option String
deriving DecidableEq

/-- The default headers object of apiRequest (script.js lines 641-644). -/
def defaultHeaders : List (String × String) :=
  [("Content-Type", "application/json"), ("Accept", "application/json")]

/-- The options object actually passed to fetch. -/
structure MergedOptions where
  headers : List (String × String)
  credentials : String
deriving DecidableEq

/-- The top-level object spread of apiRequest (script.js line 648):
every own property of the caller options replaces the entire
corresponding default property, so a caller-supplied headers object
replaces the whole default headers object rather than being merged with
it key by key. -/
def mergeOptions (o : RequestOptions) : MergedOptions :=
  { headers := (o.headers).getD defaultHeaders,
    credentials := (o.credentials).getD "same-origin" }

/-- Decidable equality of host results, needed to derive decidable
equality for the response record below. -/
instance {α β : Type} [DecidableEq α] [DecidableEq β] : DecidableEq (Except α β) :=
  fun x y =>
    match x, y with
    | Except.error a, Except.error b =>
      if h : a = b then isTrue (by rw [h])
      else isFalse (by intro hh; cases hh; exact h rfl)
    | Except.error _, Except.ok _ => isFalse (by intro hh; cases hh)
    | Except.ok _, Except.error _ => isFalse (by intro hh; cases hh)
    | Except.ok a, Except.ok b =>
      if h : a = b then isTrue (by rw [h])
      else isFalse (by intro hh; cases hh; exact h rfl)

/-- A settled HTTP response as fetch delivers it: the ok flag, the
status code, and the outcome of response.json() — either the decoded
payload (kept abstract as a string) or the message of the SyntaxError the
decoder throws. -/
structure HttpResponse where
  ok : Bool
  status : Nat
  jsonBody : Except String String
deriving DecidableEq

/-- Outcome of awaiting fetch: a transport-level rejection carrying the
error message, or a settled response. -/
inductive FetchOutcome where
  | networkError (message : String)
  | response (r : HttpResponse)
deriving DecidableEq

/-- The uniform result shape apiRequest resolves with. -/
structure ApiResult where
  success : Bool
  data : Option String
  error : Option String
deriving DecidableEq

/-- The try block of apiRequest (script.js lines 650-658): await fetch
(a transport failure propagates as a throw), throw on a non-ok status
with the message built from the status code, await response.json (a
decode failure propagates as a throw), and resolve with success and the
decoded payload. -/
def apiRequestTry (outcome : FetchOutcome) : Except String ApiResult :=
  match outcome with
  | FetchOutcome.networkError msg => Except.error msg
  | FetchOutcome.response r =>
    if r.ok = false then
      Except.error ("HTTP error! status: " ++ toString r.status)
    else
      match r.jsonBody with
      | Except.error msg => Except.error msg
      | Except.ok d => Except.ok { success := true, data := some d, error := none }

/-- apiRequest (script.js lines 639-666). The fetch host call is passed
in as a function of the merged options; the source applies it exactly
once per call. Everything thrown inside the try block is caught (lines
659-665) and normalized to a resolved failure result whose error is the
thrown message or-else the fixed fallback text, so the promise never
rejects to the caller. -/
def apiRequest (o : RequestOptions) (fetchF : MergedOptions → FetchOutcome) :
    Except String ApiResult :=
  match apiRequestTry (fetchF (mergeOptions o)) with
  | Except.ok v => Except.ok v
  | Except.error e =>
    Except.ok
      { success := false, data := none,
        error := some (jsOrString (some e) "Network error occurred") }

/-- C5: apiRequest never rejects: for every caller options and every
fetch behaviour it resolves with a result; whenever that result is a
failure its error is a non-empty string, and whenever the response was ok
with a decodable body the result is exactly success with the decoded
payload. Conversely a transport error or a non-ok status always yields a
failure result. -/
theorem apiRequest_normalizes (o : RequestOptions)
    (fetchF : MergedOptions → FetchOutcome) :
    ∃ r : ApiResult, apiRequest o fetchF = Except.ok r ∧
      (r.success = false → ∃ e, r.error = some e ∧ e ≠ "") ∧
      (∀ hr : HttpResponse, ∀ d : String,
        fetchF (mergeOptions o) = FetchOutcome.response hr → hr.ok = true →
        hr.jsonBody = Except.ok d →
        r = { success := true, data := some d, error := none }) ∧
      (∀ msg, fetchF (mergeOptions o) = FetchOutcome.networkError msg →
        r.success = false) ∧
      (∀ hr : HttpResponse,
        fetchF (mergeOptions o) = FetchOutcome.response hr → hr.ok = false →
        r.success = false) := by
  cases hf : fetchF (mergeOptions o) with
  | networkError msg =>
    refine ⟨{ success := false, data := none,
              error := some (jsOrString (some msg) "Network error occurred") },
      by simp [apiRequest, apiRequestTry, hf], ?_, ?_, ?_, ?_⟩
    · intro _
      exact ⟨_, rfl, jsOrString_ne_empty _ _ (by decide)⟩
    · intro hr d hEq
      exact FetchOutcome.noConfusion hEq
    · intro m _
      rfl
    · intro hr hEq
      exact FetchOutcome.noConfusion hEq
  | response hr =>
    cases hok : hr.ok with
    | false =>
      refine ⟨{ success := false, data := none,
                error := some (jsOrString
                  (some ("HTTP error! status: " ++ toString hr.status))
                  "Network error occurred") },
        by simp [apiRequest, apiRequestTry, hf, hok], ?_, ?_, ?_, ?_⟩
      · intro _
        exact ⟨_, rfl, jsOrString_ne_empty _ _ (by decide)⟩
      · intro hr2 d hEq hok2 _
        injection hEq with h
        subst h
        rw [hok] at hok2
        exact Bool.noConfusion hok2
      · intro m hEq
        exact FetchOutcome.noConfusion hEq
      · intro hr2 _ _
        rfl
    | true =>
      cases hj : hr.jsonBody with
      | error msg =>
        refine ⟨{ success := false, data := none,
                  error := some (jsOrString (some msg) "Network error occurred") },
          by simp [apiRequest, apiRequestTry, hf, hok, hj], ?_, ?_, ?_, ?_⟩
        · intro _
          exact ⟨_, rfl, jsOrString_ne_empty _ _ (by decide)⟩
        · intro hr2 d hEq hok2 hj2
          injection hEq with h
          subst h
          rw [hj] at hj2
          exact Except.noConfusion hj2
        · intro m hEq
          exact FetchOutcome.noConfusion hEq
        · intro hr2 hEq hok2
          injection hEq with h
          subst h
          rw [hok] at hok2
      | ok d =>
        refine ⟨{ success := true, data := some d, error := none },
          by simp [apiRequest, apiRequestTry, hf, hok, hj], ?_, ?_, ?_, ?_⟩
        · intro hFalse
          exact Bool.noConfusion hFalse
        · intro hr2 d2 hEq hok2 hj2
          injection hEq with h
          subst h
          rw [hj] at hj2
          injection hj2 with h2
          subst h2
          rfl
        · intro m hEq
          exact FetchOutcome.noConfusion hEq
        · intro hr2 hEq hok2
          injection hEq with h
          subst h
          rw [hok] at hok2
          exact Bool.noConfusion hok2

/-- C5 witness: a transport failure with an empty thrown message still
resolves with a failure result carrying a non-empty error string. -/
theorem apiRequest_normalizes_witness :
    ∃ r : ApiResult,
      apiRequest { headers := none, credentials := none }
          (fun _ => FetchOutcome.networkError "") = Except.ok r ∧
      (r.success = false → ∃ e, r.error = some e ∧ e ≠ "") ∧
      (∀ hr : HttpResponse, ∀ d : String,
        (fun (_ : MergedOptions) => FetchOutcome.networkError "")
            (mergeOptions { headers := none, credentials := none }) =
          FetchOutcome.response hr → hr.ok = true →
        hr.jsonBody = Except.ok d →
        r = { success := true, data := some d, error := none }) ∧
      (∀ msg,
        (fun (_ : MergedOptions) => FetchOutcome.networkError "")
            (mergeOptions { headers := none, credentials := none }) =
          FetchOutcome.networkError msg →
        r.success = false) ∧
      (∀ hr : HttpResponse,
        (fun (_ : MergedOptions) => FetchOutcome.networkError "")
            (mergeOptions { headers := none, credentials := none }) =
          FetchOutcome.response hr → hr.ok = false →
        r.success = false) :=
  apiRequest_normalizes { headers := none, credentials := none }
    (fun _ => FetchOutcome.networkError "")

/-- C6 counterexample: a caller overriding only Content-Type. The merged
options carry exactly the caller headers object: the Accept default is
gone, because the top-level spread replaces the headers object wholesale
instead of merging it key by key. -/
theorem apiHeaders_shallow_merge_counterexample :
    (mergeOptions { headers := some [("Content-Type", "text/plain")],
                    credentials := none }).headers =
      [("Content-Type", "text/plain")] ∧
    ((mergeOptions { headers := some [("Content-Type", "text/plain")],
                     credentials := none }).headers).lookup "Accept" = none := by
  decide

/-- C6 amended: the merge in apiRequest is a shallow top-level object
spread. When the caller supplies no headers property the JSON defaults
apply unchanged (likewise same-origin credentials), but a caller-supplied
headers object replaces the default headers wholesale, dropping any
default key the caller did not restate. -/
theorem apiHeaders_shallow_merge_amended (o : RequestOptions) :
    (o.headers = none → (mergeOptions o).headers = defaultHeaders) ∧
    (∀ h : List (String × String), o.headers = some h →
      (mergeOptions o).headers = h) ∧
    (o.credentials = none → (mergeOptions o).credentials = "same-origin") := by
  refine ⟨?_, ?_, ?_⟩
  · intro h
    simp [mergeOptions, h]
  · intro hs h
    simp [mergeOptions, h]
  · intro h
    simp [mergeOptions, h]

/-- C6 amended witness: with no caller headers the defaults go out on the
wire; with caller headers the caller object goes out verbatim. -/
theorem apiHeaders_shallow_merge_amended_witness :
    (mergeOptions { headers := none, credentials := none }).headers =
      defaultHeaders ∧
    (mergeOptions { headers := some [("Content-Type", "text/plain")],
                    credentials := none }).headers =
      [("Content-Type", "text/plain")] :=
  ⟨(apiHeaders_shallow_merge_amended
      { headers := none, credentials := none }).1 rfl,
   (apiHeaders_shallow_merge_amended
      { headers := some [("Content-Type", "text/plain")], credentials := none }).2.1
      [("Content-Type", "text/plain")] rfl⟩
